import Mathlib

/-!
Shallow embedding of the financial calculation engine of
`calculo-tasas-cuotas-tc` (src/utils/financial-calculator.ts, both module
variants, and src/types/financial.types.ts).

The repository ships two variants of the calculator module:
* Method A ("Fiserv", French amortization with a uniform monthly rate),
  lines 1-283 of the concatenated source;
* Method B ("Procesador", day-count 28/30-day discounting over a 360-day
  commercial year), lines 284-765.

JavaScript numbers are idealized as exact rationals `ℚ`; `Math.pow` with a
non-integer exponent is the one operation that leaves `ℚ`, and is embedded
with `Real.rpow` on `ℝ`.  `Math.round x` is half-up rounding `⌊x + 1/2⌋`.
Loops `for (let i = 1; i <= n; i++)` become structural recursion on `n`.
-/

namespace TasasCuotas

/-- JavaScript `Math.round`: round half-up to the nearest integer,
`Math.round x = ⌊x + 1/2⌋`. -/
def jsRound (x : ℚ) : ℤ := ⌊x + 1/2⌋

/-- `Math.round (x * 1000000) / 1000000`: round to 6 decimal places. -/
def round6 (x : ℚ) : ℚ := (jsRound (x * 1000000) : ℚ) / 1000000

/-- `Math.round (x * 100) / 100`: round to 2 decimal places. -/
def round2 (x : ℚ) : ℚ := (jsRound (x * 100) : ℚ) / 100

/-- Input record `CalculoFinancieroInput` from financial.types.ts: principal,
installment count, nominal annual rate, and the optional fee percentages. -/
structure CalculoFinancieroInput where
  importe : ℚ
  cuotas : ℚ
  tna : ℚ
  arancelProcesador : Option ℚ
  feeRiesgoProcesador : Option ℚ
  adicionalCobrador : Option ℚ
  impuestos : Option ℚ
  tnaCobrador : Option ℚ

/-- `ValidationResult` from financial.types.ts. -/
structure ValidationResult where
  isValid : Bool
  errorMessage : Option String

/-- Constant `IVA = 0.21` shared by both module variants. -/
def IVA : ℚ := 21 / 100

/-- `validarDatosEntrada` (identical in both module variants): first failing
rule wins, otherwise valid. -/
def validarDatosEntrada (input : CalculoFinancieroInput) : ValidationResult :=
  if input.importe ≤ 0 then
    { isValid := false, errorMessage := some "El importe debe ser mayor a cero" }
  else if input.cuotas ≤ 0 ∨ input.cuotas.den ≠ 1 then
    { isValid := false,
      errorMessage := some "El número de cuotas debe ser un entero mayor a cero" }
  else if input.tna < 0 then
    { isValid := false, errorMessage := some "La TNA no puede ser negativa" }
  else
    { isValid := true, errorMessage := none }

/-- The validated installment count as a natural number (validation guarantees
`cuotas` is a positive integer, so this is its value). -/
def cuotasNat (input : CalculoFinancieroInput) : ℕ := input.cuotas.num.toNat

namespace Fiserv

/-- `calcularTEM` (Method A): monthly effective rate from the nominal annual
rate, `(tna / 100) / 12`, not rounded. -/
def calcularTEM (tna : ℚ) : ℚ := (tna / 100) / 12

/-- `calcularCoeficiente` (Method A): annuity coefficient
`(tem * (1+tem)^cuotas) / ((1+tem)^cuotas - 1)`, with the zero-rate special
case `1 / cuotas`.  The Method A variant does not round this value. -/
def calcularCoeficiente (tem : ℚ) (cuotas : ℕ) : ℚ :=
  if tem = 0 then 1 / (cuotas : ℚ)
  else
    let unoMasTEM := 1 + tem
    let unoMasTEMElevadoCuotas := unoMasTEM ^ cuotas
    (tem * unoMasTEMElevadoCuotas) / (unoMasTEMElevadoCuotas - 1)

/-- `calcularTasaDirecta` (Method A): `((coeficiente * cuotas) - 1) * 100`. -/
def calcularTasaDirecta (coeficiente : ℚ) (cuotas : ℕ) : ℚ :=
  ((coeficiente * (cuotas : ℚ)) - 1) * 100

/-- `calcularCoeficienteConIVA` (Method A): `coeficiente * (1 + IVA)`,
not rounded in this variant. -/
def calcularCoeficienteConIVA (coeficiente : ℚ) : ℚ :=
  coeficiente * (1 + IVA)

/-- `calcularTEA` (Method A): `((1 + tem)^12 - 1) * 100`. -/
def calcularTEA (tem : ℚ) : ℚ := ((1 + tem) ^ 12 - 1) * 100

/-- `calcularCFT` (Method A): `((coeficiente*cuotas)^(12/cuotas) - 1) * 100`;
the fractional exponent forces a real-valued embedding (`Real.rpow`). -/
noncomputable def calcularCFT (coeficiente : ℚ) (cuotas : ℕ) : ℝ :=
  let coeficientePorCuotas : ℝ := (coeficiente : ℝ) * (cuotas : ℝ)
  let exponenteCFT : ℝ := 12 / (cuotas : ℝ)
  (coeficientePorCuotas ^ exponenteCFT - 1) * 100

/-- `calcularCuota` (Method A): `importe * coeficiente`, not rounded. -/
def calcularCuota (importe coeficiente : ℚ) : ℚ := importe * coeficiente

/-- `calcularMontoTotal` (Method A): `cuota * numeroCuotas`, not rounded. -/
def calcularMontoTotal (cuota : ℚ) (numeroCuotas : ℕ) : ℚ :=
  cuota * (numeroCuotas : ℚ)

/-- `calcularInteresTotal` (Method A): `montoTotal - importe`, not rounded. -/
def calcularInteresTotal (montoTotal importe : ℚ) : ℚ := montoTotal - importe

/-- `ResultadoCalculos` as produced by the Method A variant. -/
structure ResultadoCalculos where
  coeficiente : ℚ
  tasaDirecta : ℚ
  coeficienteConIVA : ℚ
  tea : ℚ
  cft : ℝ
  cuota : ℚ
  cuotaConIVA : ℚ
  montoTotal : ℚ
  montoTotalConIVA : ℚ
  interesTotal : ℚ
  interesTotalConIVA : ℚ

/-- `calcularFinanciamiento` (Method A): validate, then run the pipeline on
`importe`, `cuotas`, `tna` only — this variant never reads the fee fields. -/
noncomputable def calcularFinanciamiento (input : CalculoFinancieroInput) :
    Except String ResultadoCalculos :=
  let validacion := validarDatosEntrada input
  if validacion.isValid then
    let importe := input.importe
    let cuotas := cuotasNat input
    let tem := calcularTEM input.tna
    let coeficiente := calcularCoeficiente tem cuotas
    let tasaDirecta := calcularTasaDirecta coeficiente cuotas
    let coeficienteConIVA := calcularCoeficienteConIVA coeficiente
    let tea := calcularTEA tem
    let cft := calcularCFT coeficiente cuotas
    let cuota := calcularCuota importe coeficiente
    let cuotaConIVA := calcularCuota importe coeficienteConIVA
    let montoTotal := calcularMontoTotal cuota cuotas
    let montoTotalConIVA := calcularMontoTotal cuotaConIVA cuotas
    let interesTotal := calcularInteresTotal montoTotal importe
    let interesTotalConIVA := calcularInteresTotal montoTotalConIVA importe
    Except.ok
      { coeficiente := coeficiente
        tasaDirecta := tasaDirecta
        coeficienteConIVA := coeficienteConIVA
        tea := tea
        cft := cft
        cuota := cuota
        cuotaConIVA := cuotaConIVA
        montoTotal := montoTotal
        montoTotalConIVA := montoTotalConIVA
        interesTotal := interesTotal
        interesTotalConIVA := interesTotalConIVA }
  else
    Except.error (validacion.errorMessage.getD "")

end Fiserv

namespace Procesador

/-- `calcularCoeficienteCuota` (Method B): per-installment discount
coefficient.  First installment uses the 28-day factor only; later
installments multiply in the 30-day factor raised to `numeroCuota - 1`. -/
def calcularCoeficienteCuota (tna : ℚ) (numeroCuota : ℕ) : ℚ :=
  let tnaDecimal := tna / 100
  let factor28Dias := 1 + (tnaDecimal * 28 / 360)
  if numeroCuota = 1 then 1 / factor28Dias
  else
    let factor30Dias := 1 + (tnaDecimal * 30 / 360)
    let exponente := numeroCuota - 1
    let factor30Elevado := factor30Dias ^ exponente
    1 / (factor28Dias * factor30Elevado)

/-- The accumulation loop `for (let i = 1; i <= n; i++) suma += coef(tna, i)`
shared by `calcularCostoFinanciero` and `calcularCoeficientePromedio`. -/
def sumaCoeficientes (tna : ℚ) : ℕ → ℚ
  | 0 => 0
  | n + 1 => sumaCoeficientes tna n + calcularCoeficienteCuota tna (n + 1)

/-- `calcularCostoFinanciero` (Method B):
`valorNetoArancel * (1 - (1/cuotasPlan) * Σ coefCuota_i)`. -/
def calcularCostoFinanciero (valorNetoArancel : ℚ) (cuotasPlan : ℕ) (tna : ℚ) : ℚ :=
  let suma := sumaCoeficientes tna cuotasPlan
  let factorDescuento := (1 / (cuotasPlan : ℚ)) * suma
  valorNetoArancel * (1 - factorDescuento)

/-- `calcularCoeficientePromedio` (Method B): reciprocal of the average
per-installment discount coefficient, rounded to 6 decimals. -/
def calcularCoeficientePromedio (tna : ℚ) (cuotas : ℕ) : ℚ :=
  let suma := sumaCoeficientes tna cuotas
  let promedioCoeficientesDescuento := suma / (cuotas : ℚ)
  let coeficiente := 1 / promedioCoeficientesDescuento
  round6 coeficiente

/-- `calcularTEM` (Method B variant; kept for compatibility, unused by the
Method B pipeline). -/
def calcularTEM (tna : ℚ) : ℚ := (tna / 100) / 12

/-- `calcularCoeficiente` (Method B): zero-rate special case
`round6 (1/cuotas)`, otherwise the averaged day-count coefficient. -/
def calcularCoeficiente (tna : ℚ) (cuotas : ℕ) : ℚ :=
  if tna = 0 then round6 (1 / (cuotas : ℚ))
  else calcularCoeficientePromedio tna cuotas

/-- `calcularTasaDirecta` (Method B): `((coeficiente * cuotas) - 1) * 100`. -/
def calcularTasaDirecta (coeficiente : ℚ) (cuotas : ℕ) : ℚ :=
  ((coeficiente * (cuotas : ℚ)) - 1) * 100

/-- `calcularCoeficienteConIVA` (Method B): `coeficiente * (1 + IVA)`,
rounded to 6 decimals in this variant. -/
def calcularCoeficienteConIVA (coeficiente : ℚ) : ℚ :=
  round6 (coeficiente * (1 + IVA))

/-- `calcularCFT` (Method B): `(costoFinanciero / importe) * 100`. -/
def calcularCFT (importe : ℚ) (cuotas : ℕ) (tna : ℚ) : ℚ :=
  (calcularCostoFinanciero importe cuotas tna / importe) * 100

/-- `calcularTEA` (Method B): annualize `montoTotal / importe` over
`28 + 30*(cuotas-1)` days against a 360-day year, falling back to the CFT
when the guard `años > 0 && importe > 0` fails. -/
noncomputable def calcularTEA (importe : ℚ) (cuotas : ℕ) (tna : ℚ) : ℝ :=
  let cft := calcularCFT importe cuotas tna
  let costoFinanciero := calcularCostoFinanciero importe cuotas tna
  let montoTotal := importe + costoFinanciero
  let diasTotales : ℚ := 28 + 30 * ((cuotas : ℚ) - 1)
  let anios : ℚ := diasTotales / 360
  if 0 < anios ∧ 0 < importe then
    (((montoTotal / importe : ℚ) : ℝ) ^ ((1 : ℝ) / (anios : ℝ)) - 1) * 100
  else (cft : ℝ)

/-- `calcularCuota` (Method B): `importe * coeficiente`, rounded to 2
decimals in this variant. -/
def calcularCuota (importe coeficiente : ℚ) : ℚ :=
  round2 (importe * coeficiente)

/-- `calcularMontoTotal` (Method B): `cuota * numeroCuotas`, rounded to 2
decimals. -/
def calcularMontoTotal (cuota : ℚ) (numeroCuotas : ℕ) : ℚ :=
  round2 (cuota * (numeroCuotas : ℚ))

/-- `calcularInteresTotal` (Method B): `montoTotal - importe`, rounded to 2
decimals. -/
def calcularInteresTotal (montoTotal importe : ℚ) : ℚ :=
  round2 (montoTotal - importe)

/-- `DetalleCuota` from financial.types.ts. -/
structure DetalleCuota where
  numeroCuota : ℕ
  importe : ℚ
  tnaResultante : ℚ
  cuota : ℚ
  coeficiente : ℚ
  coeficienteConIVA : ℚ
  tea : ℝ
  cft : ℚ
  tasaDirecta : ℚ

/-- `calcularDetallesPorCuota` (Method B): one record per installment index
`i = 1..cuotas`, each carrying its own discount coefficient (rounded to 6
decimals) and copies of the aggregate figures. -/
noncomputable def calcularDetallesPorCuota (importe : ℚ) (cuotas : ℕ)
    (tnaCobrador : ℚ) (coeficientePromedio : ℚ) (tea : ℝ) (cft : ℚ)
    (tasaDirecta : ℚ) : List DetalleCuota :=
  let cuota := calcularCuota importe coeficientePromedio
  (List.range cuotas).map fun j =>
    let i := j + 1
    let coeficienteCuota := calcularCoeficienteCuota tnaCobrador i
    let coeficienteCuotaConIVA := calcularCoeficienteConIVA coeficienteCuota
    { numeroCuota := i
      importe := importe
      tnaResultante := tnaCobrador
      cuota := cuota
      coeficiente := round6 coeficienteCuota
      coeficienteConIVA := round6 coeficienteCuotaConIVA
      tea := tea
      cft := cft
      tasaDirecta := tasaDirecta }

/-- `ResultadoCalculos` as produced by the Method B variant. -/
structure ResultadoCalculos where
  coeficiente : ℚ
  tasaDirecta : ℚ
  coeficienteConIVA : ℚ
  tea : ℝ
  cft : ℚ
  cuota : ℚ
  cuotaConIVA : ℚ
  montoTotal : ℚ
  montoTotalConIVA : ℚ
  interesTotal : ℚ
  interesTotalConIVA : ℚ
  detallesPorCuota : List DetalleCuota

/-- `calcularFinanciamiento` (Method B): validate, compose the resultant rate
`tnaCobrador = tna + arancelProcesador + feeRiesgoProcesador +
adicionalCobrador + impuestos` (absent fees default to 0), then run the
day-count pipeline. -/
noncomputable def calcularFinanciamiento (input : CalculoFinancieroInput) :
    Except String ResultadoCalculos :=
  let validacion := validarDatosEntrada input
  if validacion.isValid then
    let importe := input.importe
    let cuotas := cuotasNat input
    let tnaCobrador := input.tna + input.arancelProcesador.getD 0 +
      input.feeRiesgoProcesador.getD 0 + input.adicionalCobrador.getD 0 +
      input.impuestos.getD 0
    let coeficiente := calcularCoeficiente tnaCobrador cuotas
    let tasaDirecta := calcularTasaDirecta coeficiente cuotas
    let coeficienteConIVA := calcularCoeficienteConIVA coeficiente
    let tea := calcularTEA importe cuotas tnaCobrador
    let cft := calcularCFT importe cuotas tnaCobrador
    let cuota := calcularCuota importe coeficiente
    let cuotaConIVA := calcularCuota importe coeficienteConIVA
    let montoTotal := calcularMontoTotal cuota cuotas
    let montoTotalConIVA := calcularMontoTotal cuotaConIVA cuotas
    let interesTotal := calcularInteresTotal montoTotal importe
    let interesTotalConIVA := calcularInteresTotal montoTotalConIVA importe
    let detallesPorCuota := calcularDetallesPorCuota importe cuotas
      tnaCobrador coeficiente tea cft tasaDirecta
    Except.ok
      { coeficiente := coeficiente
        tasaDirecta := tasaDirecta
        coeficienteConIVA := coeficienteConIVA
        tea := tea
        cft := cft
        cuota := cuota
        cuotaConIVA := cuotaConIVA
        montoTotal := montoTotal
        montoTotalConIVA := montoTotalConIVA
        interesTotal := interesTotal
        interesTotalConIVA := interesTotalConIVA
        detallesPorCuota := detallesPorCuota }
  else
    Except.error (validacion.errorMessage.getD "")

end Procesador

/-! ### Spec-side definitions

These follow the wording of the specification (spec.md §4.3, §4.4) and are
compared against the source-side definitions above in refinement theorems. -/

/-- Spec §4.3 Strategy A, written from the spec text without the final
rounding step: `monthlyRate = (rate/100)/12`; coefficient `1/n` at zero rate,
otherwise the annuity factor. -/
def specCoeficienteA (resultantRate : ℚ) (n : ℕ) : ℚ :=
  let monthlyRate := resultantRate / 100 / 12
  if monthlyRate = 0 then 1 / (n : ℚ)
  else (monthlyRate * (1 + monthlyRate) ^ n) / ((1 + monthlyRate) ^ n - 1)

/-- Spec §4.3 Strategy B: the 28-day discount factor
`1 + (rate/100) * 28/360`. -/
def specFactor28 (rate : ℚ) : ℚ := 1 + (rate / 100) * 28 / 360

/-- Spec §4.3 Strategy B: the 30-day discount factor
`1 + (rate/100) * 30/360`. -/
def specFactor30 (rate : ℚ) : ℚ := 1 + (rate / 100) * 30 / 360

/-- Spec §4.4 Method B: aggregate financial cost
`amount * (1 - (1/installmentCount) * Σ discountCoefficient_i)`. -/
def specFinancialCostB (amount : ℚ) (n : ℕ) (rate : ℚ) : ℚ :=
  amount *
    (1 - (1 / (n : ℚ)) *
      ∑ i in Finset.Icc 1 n, Procesador.calcularCoeficienteCuota rate i)

/-- Spec §4.4 Method B effective annual rate:
`totalPayable = amount + financialCost`; `totalDays = 28 + 30*(n-1)`;
`years = totalDays/360`; annualize when `years > 0` and `amount > 0`, else
fall back to the total-financial-cost percentage. -/
noncomputable def specTEA_B (amount : ℚ) (n : ℕ) (rate : ℚ) : ℝ :=
  let financialCost := specFinancialCostB amount n rate
  let totalPayable := amount + financialCost
  let totalDays : ℚ := 28 + 30 * ((n : ℚ) - 1)
  let years : ℚ := totalDays / 360
  if 0 < years ∧ 0 < amount then
    (((totalPayable / amount : ℚ) : ℝ) ^ ((1 : ℝ) / (years : ℝ)) - 1) * 100
  else (((financialCost / amount) * 100 : ℚ) : ℝ)

/-- Present value of `n` unit payments at periodic rate `r`:
`Σ_{k=1}^n (1/(1+r))^k`.  The Method A annuity coefficient is its
reciprocal, which drives the monotonicity analysis. -/
def annuityPV (r : ℚ) (n : ℕ) : ℚ := ∑ k in Finset.Icc 1 n, (1 / (1 + r)) ^ k

/-! ### Helper lemmas -/

/-- Characterization of a passing validation. -/
theorem validarDatosEntrada_isValid_iff (input : CalculoFinancieroInput) :
    (validarDatosEntrada input).isValid = true ↔
      0 < input.importe ∧ 0 < input.cuotas ∧ input.cuotas.den = 1 ∧
        0 ≤ input.tna := by
  unfold validarDatosEntrada
  split_ifs with h1 h2 h3
  · simp only [Bool.false_eq_true, false_iff]
    intro h
    exact absurd h.1 (not_lt.mpr h1)
  · simp only [Bool.false_eq_true, false_iff]
    intro h
    rcases h2 with h2 | h2
    · exact absurd h.2.1 (not_lt.mpr h2)
    · exact h2 h.2.2.1
  · simp only [Bool.false_eq_true, false_iff]
    intro h
    exact absurd h.2.2.2 (not_le.mpr h3)
  · simp only [true_iff]
    push_neg at h1 h2
    exact ⟨h1, h2.1, h2.2, not_lt.mp h3⟩

/-- The validated installment count is a positive natural whose rational cast
is `cuotas` itself. -/
theorem cuotasNat_spec (input : CalculoFinancieroInput)
    (hden : input.cuotas.den = 1) (hpos : 0 < input.cuotas) :
    1 ≤ cuotasNat input ∧ ((cuotasNat input : ℕ) : ℚ) = input.cuotas := by
  have hnum : 0 < input.cuotas.num := Rat.num_pos.mpr hpos
  constructor
  · unfold cuotasNat
    omega
  · unfold cuotasNat
    have hc : ((input.cuotas.num : ℤ) : ℚ) = input.cuotas := by
      have := Rat.num_div_den input.cuotas
      rw [hden] at this
      push_cast at this
      rw [div_one] at this
      exact this
    have ht : ((input.cuotas.num.toNat : ℤ) : ℚ) = input.cuotas := by
      rw [Int.toNat_of_nonneg hnum.le, hc]
    exact_mod_cast ht

/-- The accumulation loop computes the sum of the per-installment
coefficients over `i = 1..n`. -/
theorem sumaCoeficientes_eq_sum (tna : ℚ) (n : ℕ) :
    Procesador.sumaCoeficientes tna n =
      ∑ i in Finset.Icc 1 n, Procesador.calcularCoeficienteCuota tna i := by
  induction n with
  | zero => simp [Procesador.sumaCoeficientes]
  | succ n ih =>
      rw [Procesador.sumaCoeficientes, ih,
        Finset.sum_Icc_succ_top (Nat.one_le_iff_ne_zero.mpr (Nat.succ_ne_zero n))]

theorem jsRound_le_add_half (x : ℚ) : (jsRound x : ℚ) ≤ x + 1/2 := by
  unfold jsRound
  exact_mod_cast Int.floor_le (x + 1/2)

theorem sub_half_lt_jsRound (x : ℚ) : x - 1/2 < (jsRound x : ℚ) := by
  unfold jsRound
  have := Int.sub_one_lt_floor (x + 1/2)
  have h : x + 1/2 - 1 = x - 1/2 := by ring
  rw [h] at this
  exact_mod_cast this

theorem jsRound_mono {x y : ℚ} (h : x ≤ y) : jsRound x ≤ jsRound y :=
  Int.floor_mono (by linarith)

theorem round6_mono {x y : ℚ} (h : x ≤ y) : round6 x ≤ round6 y := by
  unfold round6
  have h1000000 : jsRound (x * 1000000) ≤ jsRound (y * 1000000) :=
    jsRound_mono (by linarith)
  gcongr


/-- Half-up rounding to 2 decimals moves a value by at most half a cent. -/
theorem abs_round2_sub_le (x : ℚ) : |round2 x - x| ≤ 1 / 200 := by
  unfold round2
  have h1 := jsRound_le_add_half (x * 100)
  have h2 := sub_half_lt_jsRound (x * 100)
  rw [abs_le]
  constructor <;> [nlinarith; nlinarith]

theorem validar_eq_error_importe (input : CalculoFinancieroInput)
    (h : input.importe ≤ 0) :
    validarDatosEntrada input =
      ⟨false, some "El importe debe ser mayor a cero"⟩ := by
  unfold validarDatosEntrada
  rw [if_pos h]

theorem validar_eq_error_cuotas (input : CalculoFinancieroInput)
    (h1 : 0 < input.importe) (h2 : input.cuotas ≤ 0 ∨ input.cuotas.den ≠ 1) :
    validarDatosEntrada input =
      ⟨false, some "El número de cuotas debe ser un entero mayor a cero"⟩ := by
  unfold validarDatosEntrada
  rw [if_neg (not_le.mpr h1), if_pos h2]

theorem validar_eq_error_tna (input : CalculoFinancieroInput)
    (h1 : 0 < input.importe) (h2 : 0 < input.cuotas)
    (h3 : input.cuotas.den = 1) (h4 : input.tna < 0) :
    validarDatosEntrada input = ⟨false, some "La TNA no puede ser negativa"⟩ := by
  unfold validarDatosEntrada
  rw [if_neg (not_le.mpr h1), if_neg, if_pos h4]
  push_neg
  exact ⟨h2, h3⟩

theorem validar_eq_ok (input : CalculoFinancieroInput)
    (h1 : 0 < input.importe) (h2 : 0 < input.cuotas)
    (h3 : input.cuotas.den = 1) (h4 : 0 ≤ input.tna) :
    validarDatosEntrada input = ⟨true, none⟩ := by
  unfold validarDatosEntrada
  rw [if_neg (not_le.mpr h1), if_neg, if_neg (not_lt.mpr h4)]
  push_neg
  exact ⟨h2, h3⟩

theorem fiserv_financiamiento_error (input : CalculoFinancieroInput)
    (msg : String)
    (h : validarDatosEntrada input = ⟨false, some msg⟩) :
    Fiserv.calcularFinanciamiento input = Except.error msg := by
  unfold Fiserv.calcularFinanciamiento
  rw [h]
  rfl

theorem procesador_financiamiento_error (input : CalculoFinancieroInput)
    (msg : String)
    (h : validarDatosEntrada input = ⟨false, some msg⟩) :
    Procesador.calcularFinanciamiento input = Except.error msg := by
  unfold Procesador.calcularFinanciamiento
  rw [h]
  rfl

theorem fiserv_financiamiento_ok (input : CalculoFinancieroInput)
    (h : validarDatosEntrada input = ⟨true, none⟩) :
    ∃ r, Fiserv.calcularFinanciamiento input = Except.ok r := by
  unfold Fiserv.calcularFinanciamiento
  rw [h]
  exact ⟨_, rfl⟩

theorem procesador_financiamiento_ok (input : CalculoFinancieroInput)
    (h : validarDatosEntrada input = ⟨true, none⟩) :
    ∃ r, Procesador.calcularFinanciamiento input = Except.ok r := by
  unfold Procesador.calcularFinanciamiento
  rw [h]
  exact ⟨_, rfl⟩

/-! ### Claim theorems -/

/-- C2 (counterexample): the Method A coefficient is not rounded to
6 decimal places: at `tna = 120`, `cuotas = 12` the pipeline's coefficient
differs from its own 6-decimal half-up rounding. -/
theorem C2_counterexample :
    Fiserv.calcularCoeficiente (Fiserv.calcularTEM 120) 12 ≠
      round6 (Fiserv.calcularCoeficiente (Fiserv.calcularTEM 120) 12) := by
  norm_num [Fiserv.calcularCoeficiente, Fiserv.calcularTEM, round6, jsRound]

/-- C2 (amended): under Method A, with `monthlyRate = (nominalAnnualRate/100)/12`,
the coefficient equals `1/installmentCount` when `monthlyRate = 0` and the
annuity factor `(monthlyRate * (1+monthlyRate)^n) / ((1+monthlyRate)^n - 1)`
otherwise, and the final coefficient is this exact value, without the
6-decimal rounding the claim asserts. -/
theorem C2_amended (tna : ℚ) (cuotas : ℕ) :
    Fiserv.calcularCoeficiente (Fiserv.calcularTEM tna) cuotas =
      specCoeficienteA tna cuotas := rfl

/-- C3: under Method B the per-installment discount coefficient is
`1 / factor28` for `i = 1` and `1 / (factor28 * factor30^(i-1))` for `i > 1`;
for a single installment only the 28-day factor enters the result. -/
theorem C3_coeficiente_cuota (tna : ℚ) (i : ℕ) :
    Procesador.calcularCoeficienteCuota tna i =
      (if i = 1 then 1 / specFactor28 tna
       else 1 / (specFactor28 tna * specFactor30 tna ^ (i - 1))) ∧
    Procesador.calcularCoeficienteCuota tna 1 = 1 / specFactor28 tna := by
  constructor
  · unfold Procesador.calcularCoeficienteCuota specFactor28 specFactor30
    split <;> rfl
  · rfl

/-- C4: under Method B, for a positive resultant rate the financing
coefficient is the reciprocal of the arithmetic mean of the per-installment
discount coefficients over `i = 1..n`, rounded half-up to 6 decimals; at
rate 0 it is `1/n` rounded to 6 decimals, bypassing the day-count formula. -/
theorem C4_coeficiente_promedio (tna : ℚ) (n : ℕ) :
    (0 < tna → Procesador.calcularCoeficiente tna n =
      round6 (1 /
        ((∑ i in Finset.Icc 1 n, Procesador.calcularCoeficienteCuota tna i) /
          (n : ℚ)))) ∧
    (tna = 0 →
      Procesador.calcularCoeficiente tna n = round6 (1 / (n : ℚ))) := by
  constructor
  · intro h
    unfold Procesador.calcularCoeficiente Procesador.calcularCoeficientePromedio
    rw [if_neg (ne_of_gt h), sumaCoeficientes_eq_sum]
  · intro h
    unfold Procesador.calcularCoeficiente
    rw [if_pos h]

/-- Witness for C4 at `tna = 50, n = 3` and `tna = 0, n = 4`. -/
theorem C4_witness :
    Procesador.calcularCoeficiente 50 3 =
      round6 (1 /
        ((∑ i in Finset.Icc 1 3, Procesador.calcularCoeficienteCuota 50 i) /
          (3 : ℚ))) ∧
    Procesador.calcularCoeficiente 0 4 = round6 (1 / (4 : ℚ)) :=
  ⟨(C4_coeficiente_promedio 50 3).1 (by norm_num),
   (C4_coeficiente_promedio 0 4).2 rfl⟩

/-- C6: Method B's effective annual rate agrees with the spec formula:
financial cost `amount * (1 - (1/n) * Σ discountCoefficient_i)`,
`totalPayable = amount + financialCost`, `totalDays = 28 + 30*(n-1)`,
`years = totalDays/360`, annualized as `((totalPayable/amount)^(1/years)-1)*100`
when `years > 0` and `amount > 0`, with the total-financial-cost percentage
`(financialCost/amount)*100` as the fallback. -/
theorem C6_tea_b (amount : ℚ) (n : ℕ) (rate : ℚ) :
    Procesador.calcularTEA amount n rate = specTEA_B amount n rate := by
  simp only [Procesador.calcularTEA, specTEA_B, Procesador.calcularCFT,
    Procesador.calcularCostoFinanciero, specFinancialCostB,
    sumaCoeficientes_eq_sum]

/-- C7 (counterexample): Method A's tax-adjusted coefficient is not rounded
to 6 decimals: at the pipeline coefficient for `tna = 120, cuotas = 12` it
differs from `coefficient * 1.21` rounded half-up to 6 decimal places. -/
theorem C7_counterexample :
    Fiserv.calcularCoeficienteConIVA
        (Fiserv.calcularCoeficiente (Fiserv.calcularTEM 120) 12) ≠
      round6
        (Fiserv.calcularCoeficiente (Fiserv.calcularTEM 120) 12 * (121 / 100)) := by
  norm_num [Fiserv.calcularCoeficienteConIVA, Fiserv.calcularCoeficiente,
    Fiserv.calcularTEM, IVA, round6, jsRound]

/-- C7 (amended): the tax-adjusted coefficient is `coefficient * (1 + IVA)`
with the named constant `IVA = 0.21` (so the factor is 1.21); Method B rounds
the product half-up to 6 decimals while Method A returns it unrounded. -/
theorem C7_amended (c : ℚ) :
    Procesador.calcularCoeficienteConIVA c = round6 (c * (1 + IVA)) ∧
    Fiserv.calcularCoeficienteConIVA c = c * (1 + IVA) ∧
    (1 : ℚ) + IVA = 121 / 100 :=
  ⟨rfl, rfl, by norm_num [IVA]⟩

/-- C8: `totalPayable - totalInterest` recovers the principal: exactly under
Method A (which does not round), and within half a cent (the fixed 2-decimal
half-up rounding) under Method B; instantiating the coefficient at the
tax-free or tax-adjusted value covers both variants. -/
theorem C8_round_trip (importe coeficiente : ℚ) (n : ℕ) :
    Fiserv.calcularMontoTotal (Fiserv.calcularCuota importe coeficiente) n -
        Fiserv.calcularInteresTotal
          (Fiserv.calcularMontoTotal (Fiserv.calcularCuota importe coeficiente) n)
          importe = importe ∧
    |Procesador.calcularMontoTotal (Procesador.calcularCuota importe coeficiente) n -
        Procesador.calcularInteresTotal
          (Procesador.calcularMontoTotal
            (Procesador.calcularCuota importe coeficiente) n)
          importe - importe| ≤ 1 / 200 := by
  constructor
  · unfold Fiserv.calcularInteresTotal
    ring
  · set mt := Procesador.calcularMontoTotal
      (Procesador.calcularCuota importe coeficiente) n with hmt
    unfold Procesador.calcularInteresTotal
    have habs := abs_round2_sub_le (mt - importe)
    have heq : mt - round2 (mt - importe) - importe =
        -(round2 (mt - importe) - (mt - importe)) := by ring
    rw [heq, abs_neg]
    exact habs

/-- C1: both orchestrators validate first; the rules fire in order with the
first failure winning and its message (the source's Spanish strings, which
the spec renders in English) carried on the error; on failure nothing is
computed and no partial result exists, and on valid input a complete result
record is returned. -/
theorem C1_validation_fail_fast (input : CalculoFinancieroInput) :
    (input.importe ≤ 0 →
      Fiserv.calcularFinanciamiento input =
          Except.error "El importe debe ser mayor a cero" ∧
        Procesador.calcularFinanciamiento input =
          Except.error "El importe debe ser mayor a cero") ∧
    (0 < input.importe → (input.cuotas ≤ 0 ∨ input.cuotas.den ≠ 1) →
      Fiserv.calcularFinanciamiento input =
          Except.error "El número de cuotas debe ser un entero mayor a cero" ∧
        Procesador.calcularFinanciamiento input =
          Except.error "El número de cuotas debe ser un entero mayor a cero") ∧
    (0 < input.importe → 0 < input.cuotas → input.cuotas.den = 1 →
        input.tna < 0 →
      Fiserv.calcularFinanciamiento input =
          Except.error "La TNA no puede ser negativa" ∧
        Procesador.calcularFinanciamiento input =
          Except.error "La TNA no puede ser negativa") ∧
    (0 < input.importe → 0 < input.cuotas → input.cuotas.den = 1 →
        0 ≤ input.tna →
      (∃ r, Fiserv.calcularFinanciamiento input = Except.ok r) ∧
        ∃ r, Procesador.calcularFinanciamiento input = Except.ok r) := by
  refine ⟨fun h => ?_, fun h1 h2 => ?_, fun h1 h2 h3 h4 => ?_,
    fun h1 h2 h3 h4 => ?_⟩
  · exact ⟨fiserv_financiamiento_error _ _ (validar_eq_error_importe _ h),
      procesador_financiamiento_error _ _ (validar_eq_error_importe _ h)⟩
  · exact ⟨fiserv_financiamiento_error _ _ (validar_eq_error_cuotas _ h1 h2),
      procesador_financiamiento_error _ _ (validar_eq_error_cuotas _ h1 h2)⟩
  · exact
      ⟨fiserv_financiamiento_error _ _ (validar_eq_error_tna _ h1 h2 h3 h4),
       procesador_financiamiento_error _ _ (validar_eq_error_tna _ h1 h2 h3 h4)⟩
  · exact ⟨fiserv_financiamiento_ok _ (validar_eq_ok _ h1 h2 h3 h4),
      procesador_financiamiento_ok _ (validar_eq_ok _ h1 h2 h3 h4)⟩

/-- Witness for C1: the three rejection rules and the acceptance case at
concrete inputs. -/
theorem C1_witness :
    Fiserv.calcularFinanciamiento ⟨-100, 12, 120, none, none, none, none, none⟩ =
        Except.error "El importe debe ser mayor a cero" ∧
    Procesador.calcularFinanciamiento ⟨10000, 0, 120, none, none, none, none, none⟩ =
        Except.error "El número de cuotas debe ser un entero mayor a cero" ∧
    Fiserv.calcularFinanciamiento ⟨10000, 12, -1, none, none, none, none, none⟩ =
        Except.error "La TNA no puede ser negativa" ∧
    (Procesador.calcularFinanciamiento
        ⟨10000, 3, 50, none, none, none, none, none⟩).isOk = true := by
  refine ⟨((C1_validation_fail_fast _).1 (by norm_num)).1,
    ((C1_validation_fail_fast _).2.1 (by norm_num) (Or.inl (by norm_num))).2,
    ((C1_validation_fail_fast _).2.2.1 (by norm_num) (by norm_num) (by decide)
      (by norm_num)).1, ?_⟩
  obtain ⟨r, hr⟩ := ((C1_validation_fail_fast
    (⟨10000, 3, 50, none, none, none, none, none⟩ : CalculoFinancieroInput)).2.2.2
    (by norm_num) (by norm_num) (by decide) (by norm_num)).2
  rw [hr]
  rfl

/-- C5 (counterexample): at `importe = 10000, cuotas = 12, tna = 120` with a
nonzero processor tariff of 5, Method A returns exactly the no-fee result,
while the coefficient it would produce at the resultant rate 125 differs from
the one at the nominal rate 120 — so fees do not drive Method A's
monthly-rate derivation. -/
theorem C5_counterexample :
    Fiserv.calcularFinanciamiento ⟨10000, 12, 120, some 5, none, none, none, none⟩ =
      Fiserv.calcularFinanciamiento ⟨10000, 12, 120, none, none, none, none, none⟩ ∧
    Fiserv.calcularCoeficiente (Fiserv.calcularTEM 125) 12 ≠
      Fiserv.calcularCoeficiente (Fiserv.calcularTEM 120) 12 := by
  constructor
  · rfl
  · norm_num [Fiserv.calcularCoeficiente, Fiserv.calcularTEM]

/-- C5 (amended): Method A ignores the fee fields entirely: its result is a
function of `importe`, `cuotas` and the nominal `tna` alone, unchanged by any
present and nonzero fee percentage; only Method B folds the fees into the
resultant rate. -/
theorem C5_amended (importe cuotas tna : ℚ) (f1 f2 f3 f4 f5 : Option ℚ) :
    Fiserv.calcularFinanciamiento ⟨importe, cuotas, tna, f1, f2, f3, f4, f5⟩ =
      Fiserv.calcularFinanciamiento
        ⟨importe, cuotas, tna, none, none, none, none, none⟩ := rfl

/-- C10: for every input passing validation, Method B's effective-annual-rate
guard is satisfied (`years ≥ 28/360 > 0`, `amount > 0`), so the returned TEA
always comes from the compound day-count formula and the total-financial-cost
fallback is unreachable. -/
theorem C10_tea_guard (input : CalculoFinancieroInput) (tnaCobrador : ℚ)
    (h : (validarDatosEntrada input).isValid = true) :
    0 < input.importe ∧ 1 ≤ cuotasNat input ∧
    0 < (28 + 30 * ((cuotasNat input : ℚ) - 1)) / 360 ∧
    Procesador.calcularTEA input.importe (cuotasNat input) tnaCobrador =
      ((((input.importe +
            Procesador.calcularCostoFinanciero input.importe (cuotasNat input)
              tnaCobrador) / input.importe : ℚ) : ℝ) ^
          ((1 : ℝ) /
            (((28 + 30 * ((cuotasNat input : ℚ) - 1)) / 360 : ℚ) : ℝ)) - 1) *
        100 := by
  obtain ⟨h1, h2, h3, -⟩ := (validarDatosEntrada_isValid_iff input).mp h
  obtain ⟨hn, -⟩ := cuotasNat_spec input h3 h2
  have hnq : (1 : ℚ) ≤ (cuotasNat input : ℚ) := by exact_mod_cast hn
  have hanios : 0 < (28 + 30 * ((cuotasNat input : ℚ) - 1)) / 360 := by
    apply div_pos _ (by norm_num)
    linarith
  refine ⟨h1, hn, hanios, ?_⟩
  simp only [Procesador.calcularTEA]
  rw [if_pos ⟨hanios, h1⟩]

/-! ### Monotonicity machinery (Method A) -/

theorem annuityPV_succ (r : ℚ) (n : ℕ) :
    annuityPV r (n + 1) = annuityPV r n + (1 / (1 + r)) ^ (n + 1) := by
  unfold annuityPV
  rw [Finset.sum_Icc_succ_top (Nat.one_le_iff_ne_zero.mpr (Nat.succ_ne_zero n))]

/-- The geometric-sum identity behind the annuity factor:
`annuityPV r n * (r * (1+r)^n) = (1+r)^n - 1`. -/
theorem annuityPV_mul (r : ℚ) (h0 : (1 : ℚ) + r ≠ 0) (n : ℕ) :
    annuityPV r n * (r * (1 + r) ^ n) = (1 + r) ^ n - 1 := by
  induction n with
  | zero => simp [annuityPV]
  | succ n ih =>
      have hv : (1 / (1 + r)) * (1 + r) = 1 := one_div_mul_cancel h0
      have hpow : (1 / (1 + r)) ^ (n + 1) * (1 + r) ^ (n + 1) = 1 := by
        rw [← mul_pow, hv, one_pow]
      calc (annuityPV r (n + 1)) * (r * (1 + r) ^ (n + 1))
          = (annuityPV r n * (r * (1 + r) ^ n)) * (1 + r) +
              r * ((1 / (1 + r)) ^ (n + 1) * (1 + r) ^ (n + 1)) := by
            rw [annuityPV_succ]; ring
        _ = ((1 + r) ^ n - 1) * (1 + r) + r * 1 := by rw [ih, hpow]
        _ = (1 + r) ^ (n + 1) - 1 := by ring

theorem annuityPV_pos (r : ℚ) (hr : 0 ≤ r) {n : ℕ} (hn : 1 ≤ n) :
    0 < annuityPV r n := by
  unfold annuityPV
  refine Finset.sum_pos (fun k _ => ?_) ⟨1, Finset.mem_Icc.mpr ⟨le_refl 1, hn⟩⟩
  have h1 : (0 : ℚ) < 1 + r := by linarith
  positivity

theorem annuityPV_le_card (r : ℚ) (hr : 0 ≤ r) (n : ℕ) :
    annuityPV r n ≤ (n : ℚ) := by
  unfold annuityPV
  have h1 : (0 : ℚ) < 1 + r := by linarith
  calc ∑ k in Finset.Icc 1 n, (1 / (1 + r)) ^ k
      ≤ ∑ k in Finset.Icc 1 n, (1 : ℚ) := by
        refine Finset.sum_le_sum fun k _ => ?_
        refine pow_le_one₀ (by positivity) ?_
        rw [div_le_one h1]
        linarith
    _ = (n : ℚ) := by simp

theorem annuityPV_antitone {r1 r2 : ℚ} (h1 : 0 ≤ r1) (h12 : r1 ≤ r2) (n : ℕ) :
    annuityPV r2 n ≤ annuityPV r1 n := by
  unfold annuityPV
  refine Finset.sum_le_sum fun k _ => ?_
  have hp1 : (0 : ℚ) < 1 + r1 := by linarith
  have hp2 : (0 : ℚ) < 1 + r2 := by linarith
  refine pow_le_pow_left₀ (by positivity) ?_ k
  exact one_div_le_one_div_of_le hp1 (by linarith)

/-- The Method A coefficient is the reciprocal of the present-value sum, at
every nonnegative rate (the zero-rate special case agrees with the limit). -/
theorem fiserv_coeficiente_eq_inv_annuityPV (r : ℚ) (hr : 0 ≤ r) {n : ℕ}
    (hn : 1 ≤ n) :
    Fiserv.calcularCoeficiente r n = 1 / annuityPV r n := by
  rcases eq_or_lt_of_le hr with h0 | hpos
  · subst h0
    unfold Fiserv.calcularCoeficiente annuityPV
    rw [if_pos rfl]
    simp
  · have h1 : (0 : ℚ) < 1 + r := by linarith
    have hS : 0 < annuityPV r n := annuityPV_pos r hr hn
    have hgt : 1 < (1 + r) ^ n :=
      one_lt_pow₀ (by linarith) (Nat.one_le_iff_ne_zero.mp hn)
    have hden : (1 + r) ^ n - 1 ≠ 0 := by linarith
    unfold Fiserv.calcularCoeficiente
    rw [if_neg (ne_of_gt hpos)]
    show (r * (1 + r) ^ n) / ((1 + r) ^ n - 1) = 1 / annuityPV r n
    rw [div_eq_div_iff hden (ne_of_gt hS), one_mul, mul_comm]
    exact annuityPV_mul r (by linarith) n

theorem fiserv_coeficiente_pos (r : ℚ) (hr : 0 ≤ r) {n : ℕ} (hn : 1 ≤ n) :
    0 < Fiserv.calcularCoeficiente r n := by
  rw [fiserv_coeficiente_eq_inv_annuityPV r hr hn]
  exact one_div_pos.mpr (annuityPV_pos r hr hn)

theorem fiserv_coeficiente_mono {r1 r2 : ℚ} (h1 : 0 ≤ r1) (h12 : r1 ≤ r2)
    {n : ℕ} (hn : 1 ≤ n) :
    Fiserv.calcularCoeficiente r1 n ≤ Fiserv.calcularCoeficiente r2 n := by
  rw [fiserv_coeficiente_eq_inv_annuityPV r1 h1 hn,
    fiserv_coeficiente_eq_inv_annuityPV r2 (h1.trans h12) hn]
  exact one_div_le_one_div_of_le (annuityPV_pos r2 (h1.trans h12) hn)
    (annuityPV_antitone h1 h12 n)

/-! ### Monotonicity machinery (Method B) -/

theorem procesador_coefCuota_pos (t : ℚ) (ht : 0 ≤ t) (i : ℕ) :
    0 < Procesador.calcularCoeficienteCuota t i := by
  have h28 : (0 : ℚ) < 1 + (t / 100 * 28 / 360) := by linarith
  have h30 : (0 : ℚ) < 1 + (t / 100 * 30 / 360) := by linarith
  simp only [Procesador.calcularCoeficienteCuota]
  split_ifs
  · exact one_div_pos.mpr h28
  · exact one_div_pos.mpr (mul_pos h28 (pow_pos h30 _))

theorem procesador_coefCuota_le_one (t : ℚ) (ht : 0 ≤ t) (i : ℕ) :
    Procesador.calcularCoeficienteCuota t i ≤ 1 := by
  have h28 : (1 : ℚ) ≤ 1 + (t / 100 * 28 / 360) := by linarith
  have h30 : (1 : ℚ) ≤ 1 + (t / 100 * 30 / 360) := by linarith
  simp only [Procesador.calcularCoeficienteCuota]
  split_ifs
  · rw [div_le_one (by linarith)]
    exact h28
  · have hp : (1 : ℚ) ≤ (1 + (t / 100 * 30 / 360)) ^ (i - 1) :=
      one_le_pow₀ h30
    rw [div_le_one (by nlinarith)]
    nlinarith

theorem procesador_coefCuota_antitone {t1 t2 : ℚ} (h1 : 0 ≤ t1)
    (h12 : t1 ≤ t2) (i : ℕ) :
    Procesador.calcularCoeficienteCuota t2 i ≤
      Procesador.calcularCoeficienteCuota t1 i := by
  have h2 : 0 ≤ t2 := h1.trans h12
  have h28a : (0 : ℚ) < 1 + (t1 / 100 * 28 / 360) := by linarith
  have h30a : (0 : ℚ) < 1 + (t1 / 100 * 30 / 360) := by linarith
  have h28b : (0 : ℚ) < 1 + (t2 / 100 * 28 / 360) := by linarith
  have h30b : (0 : ℚ) < 1 + (t2 / 100 * 30 / 360) := by linarith
  have h28le : 1 + (t1 / 100 * 28 / 360) ≤ 1 + (t2 / 100 * 28 / 360) := by
    linarith
  have h30le : 1 + (t1 / 100 * 30 / 360) ≤ 1 + (t2 / 100 * 30 / 360) := by
    linarith
  simp only [Procesador.calcularCoeficienteCuota]
  split_ifs
  · exact one_div_le_one_div_of_le h28a h28le
  · refine one_div_le_one_div_of_le (mul_pos h28a (pow_pos h30a _)) ?_
    exact mul_le_mul h28le (pow_le_pow_left₀ h30a.le h30le _)
      (pow_nonneg h30a.le _) h28b.le

theorem procesador_suma_antitone {t1 t2 : ℚ} (h1 : 0 ≤ t1) (h12 : t1 ≤ t2)
    (n : ℕ) :
    Procesador.sumaCoeficientes t2 n ≤ Procesador.sumaCoeficientes t1 n := by
  rw [sumaCoeficientes_eq_sum, sumaCoeficientes_eq_sum]
  exact Finset.sum_le_sum fun i _ => procesador_coefCuota_antitone h1 h12 i

theorem procesador_suma_pos (t : ℚ) (ht : 0 ≤ t) {n : ℕ} (hn : 1 ≤ n) :
    0 < Procesador.sumaCoeficientes t n := by
  rw [sumaCoeficientes_eq_sum]
  exact Finset.sum_pos (fun i _ => procesador_coefCuota_pos t ht i)
    ⟨1, Finset.mem_Icc.mpr ⟨le_refl 1, hn⟩⟩

theorem procesador_suma_le_card (t : ℚ) (ht : 0 ≤ t) (n : ℕ) :
    Procesador.sumaCoeficientes t n ≤ (n : ℚ) := by
  rw [sumaCoeficientes_eq_sum]
  calc ∑ i in Finset.Icc 1 n, Procesador.calcularCoeficienteCuota t i
      ≤ ∑ i in Finset.Icc 1 n, (1 : ℚ) :=
        Finset.sum_le_sum fun i _ => procesador_coefCuota_le_one t ht i
    _ = (n : ℚ) := by simp

theorem procesador_promedio_eq (t : ℚ) (n : ℕ) :
    Procesador.calcularCoeficientePromedio t n =
      round6 (1 / (Procesador.sumaCoeficientes t n / (n : ℚ))) := rfl

theorem procesador_coeficiente_mono {t1 t2 : ℚ} (h1 : 0 ≤ t1) (h12 : t1 < t2)
    {n : ℕ} (hn : 1 ≤ n) :
    Procesador.calcularCoeficiente t1 n ≤ Procesador.calcularCoeficiente t2 n := by
  have h2pos : 0 < t2 := lt_of_le_of_lt h1 h12
  have hnq : (1 : ℚ) ≤ (n : ℚ) := by exact_mod_cast hn
  have hS2pos : 0 < Procesador.sumaCoeficientes t2 n :=
    procesador_suma_pos t2 h2pos.le hn
  have hS2le : Procesador.sumaCoeficientes t2 n ≤ (n : ℚ) :=
    procesador_suma_le_card t2 h2pos.le n
  have hq2pos : 0 < Procesador.sumaCoeficientes t2 n / (n : ℚ) :=
    div_pos hS2pos (by linarith)
  unfold Procesador.calcularCoeficiente
  rw [if_neg (ne_of_gt h2pos), procesador_promedio_eq]
  rcases eq_or_lt_of_le h1 with h0 | hpos
  · rw [if_pos h0.symm]
    apply round6_mono
    have hone : (1 : ℚ) ≤ 1 / (Procesador.sumaCoeficientes t2 n / (n : ℚ)) := by
      rw [le_div_iff₀ hq2pos, one_mul, div_le_one (by linarith)]
      exact hS2le
    have h1n : 1 / (n : ℚ) ≤ 1 := by
      rw [div_le_one (by linarith)]
      exact hnq
    linarith
  · have hS1pos : 0 < Procesador.sumaCoeficientes t1 n :=
      procesador_suma_pos t1 h1 hn
    rw [if_neg (ne_of_gt hpos), procesador_promedio_eq]
    apply round6_mono
    refine one_div_le_one_div_of_le hq2pos ?_
    have := procesador_suma_antitone h1 h12.le n
    gcongr

theorem procesador_costo_mono (importe : ℚ) (himp : 0 ≤ importe) {t1 t2 : ℚ}
    (h1 : 0 ≤ t1) (h12 : t1 ≤ t2) (n : ℕ) :
    Procesador.calcularCostoFinanciero importe n t1 ≤
      Procesador.calcularCostoFinanciero importe n t2 := by
  simp only [Procesador.calcularCostoFinanciero]
  have hS := procesador_suma_antitone h1 h12 n
  have hmul : 1 / (n : ℚ) * Procesador.sumaCoeficientes t2 n ≤
      1 / (n : ℚ) * Procesador.sumaCoeficientes t1 n :=
    mul_le_mul_of_nonneg_left hS (by positivity)
  apply mul_le_mul_of_nonneg_left _ himp
  linarith

theorem procesador_costo_nonneg (importe : ℚ) (himp : 0 ≤ importe) (t : ℚ)
    (ht : 0 ≤ t) (n : ℕ) :
    0 ≤ Procesador.calcularCostoFinanciero importe n t := by
  simp only [Procesador.calcularCostoFinanciero]
  apply mul_nonneg himp
  rcases Nat.eq_zero_or_pos n with h0 | hpos
  · subst h0
    simp [Procesador.sumaCoeficientes]
  · have hS := procesador_suma_le_card t ht n
    have hnq : (0 : ℚ) < (n : ℚ) := by exact_mod_cast hpos
    have hmul : 1 / (n : ℚ) * Procesador.sumaCoeficientes t n ≤
        1 / (n : ℚ) * (n : ℚ) := mul_le_mul_of_nonneg_left hS (by positivity)
    rw [one_div_mul_cancel (ne_of_gt hnq)] at hmul
    linarith

/-- For validated parameters (`importe > 0`, `n ≥ 1`), Method B's TEA is the
compound day-count formula: the guard always holds. -/
theorem procesador_tea_eq (importe : ℚ) (n : ℕ) (t : ℚ) (himp : 0 < importe)
    (hn : 1 ≤ n) :
    Procesador.calcularTEA importe n t =
      ((((importe + Procesador.calcularCostoFinanciero importe n t) /
            importe : ℚ) : ℝ) ^
          ((1 : ℝ) / (((28 + 30 * ((n : ℚ) - 1)) / 360 : ℚ) : ℝ)) - 1) * 100 := by
  have hnq : (1 : ℚ) ≤ (n : ℚ) := by exact_mod_cast hn
  have hanios : 0 < (28 + 30 * ((n : ℚ) - 1)) / 360 := by
    apply div_pos _ (by norm_num)
    linarith
  simp only [Procesador.calcularTEA]
  rw [if_pos ⟨hanios, himp⟩]

theorem procesador_tea_mono (importe : ℚ) (himp : 0 < importe) {t1 t2 : ℚ}
    (h1 : 0 ≤ t1) (h12 : t1 ≤ t2) {n : ℕ} (hn : 1 ≤ n) :
    Procesador.calcularTEA importe n t1 ≤ Procesador.calcularTEA importe n t2 := by
  rw [procesador_tea_eq importe n t1 himp hn,
    procesador_tea_eq importe n t2 himp hn]
  have hc1 := procesador_costo_nonneg importe himp.le t1 h1 n
  have hcm := procesador_costo_mono importe himp.le h1 h12 n
  have hbase1 : (0 : ℚ) ≤
      (importe + Procesador.calcularCostoFinanciero importe n t1) / importe :=
    div_nonneg (by linarith) himp.le
  have hbase12 :
      (importe + Procesador.calcularCostoFinanciero importe n t1) / importe ≤
        (importe + Procesador.calcularCostoFinanciero importe n t2) / importe := by
    gcongr
  have hnq : (1 : ℚ) ≤ (n : ℚ) := by exact_mod_cast hn
  have hanios : (0 : ℚ) < (28 + 30 * ((n : ℚ) - 1)) / 360 := by
    apply div_pos _ (by norm_num)
    linarith
  have haniosR : (0 : ℝ) < (((28 + 30 * ((n : ℚ) - 1)) / 360 : ℚ) : ℝ) := by
    exact_mod_cast hanios
  have hexp : (0 : ℝ) ≤ (1 : ℝ) / (((28 + 30 * ((n : ℚ) - 1)) / 360 : ℚ) : ℝ) :=
    by positivity
  have hb1R : (0 : ℝ) ≤
      (((importe + Procesador.calcularCostoFinanciero importe n t1) /
        importe : ℚ) : ℝ) := by exact_mod_cast hbase1
  have hb12R :
      (((importe + Procesador.calcularCostoFinanciero importe n t1) /
          importe : ℚ) : ℝ) ≤
        (((importe + Procesador.calcularCostoFinanciero importe n t2) /
          importe : ℚ) : ℝ) := by exact_mod_cast hbase12
  have hpow := Real.rpow_le_rpow hb1R hb12R hexp
  linarith

theorem procesador_cft_mono (importe : ℚ) (himp : 0 < importe) {t1 t2 : ℚ}
    (h1 : 0 ≤ t1) (h12 : t1 ≤ t2) (n : ℕ) :
    Procesador.calcularCFT importe n t1 ≤ Procesador.calcularCFT importe n t2 := by
  unfold Procesador.calcularCFT
  have hcm := procesador_costo_mono importe himp.le h1 h12 n
  gcongr

theorem fiserv_cft_mono {c1 c2 : ℚ} (h0 : 0 ≤ c1) (h12 : c1 ≤ c2) (n : ℕ) :
    Fiserv.calcularCFT c1 n ≤ Fiserv.calcularCFT c2 n := by
  simp only [Fiserv.calcularCFT]
  have hc1 : (0 : ℝ) ≤ (c1 : ℝ) := by exact_mod_cast h0
  have hle : (c1 : ℝ) ≤ (c2 : ℝ) := by exact_mod_cast h12
  have hbase0 : (0 : ℝ) ≤ (c1 : ℝ) * (n : ℝ) :=
    mul_nonneg hc1 (by positivity)
  have hbase : (c1 : ℝ) * (n : ℝ) ≤ (c2 : ℝ) * (n : ℝ) :=
    mul_le_mul_of_nonneg_right hle (by positivity)
  have hexp : (0 : ℝ) ≤ 12 / (n : ℝ) := by positivity
  have hpow := Real.rpow_le_rpow hbase0 hbase hexp
  linarith

/-- C9: increasing the nominal annual rate, with the principal, the
installment count and the fees fixed, never decreases the coefficient, the
direct rate, the effective annual rate or the total financial cost, under
either method.  `fees` stands for the sum of the four optional fee
percentages, which is all the orchestrator ever uses of them; Method A
ignores the fees entirely (see C5), so its quantities depend on the nominal
rate alone. -/
theorem C9_monotonicity (importe tna1 tna2 fees : ℚ) (n : ℕ)
    (himporte : 0 < importe) (hn : 1 ≤ n) (h1 : 0 ≤ tna1) (h12 : tna1 < tna2)
    (hfees : 0 ≤ fees) :
    Fiserv.calcularCoeficiente (Fiserv.calcularTEM tna1) n ≤
      Fiserv.calcularCoeficiente (Fiserv.calcularTEM tna2) n ∧
    Fiserv.calcularTasaDirecta
        (Fiserv.calcularCoeficiente (Fiserv.calcularTEM tna1) n) n ≤
      Fiserv.calcularTasaDirecta
        (Fiserv.calcularCoeficiente (Fiserv.calcularTEM tna2) n) n ∧
    Fiserv.calcularTEA (Fiserv.calcularTEM tna1) ≤
      Fiserv.calcularTEA (Fiserv.calcularTEM tna2) ∧
    Fiserv.calcularCFT
        (Fiserv.calcularCoeficiente (Fiserv.calcularTEM tna1) n) n ≤
      Fiserv.calcularCFT
        (Fiserv.calcularCoeficiente (Fiserv.calcularTEM tna2) n) n ∧
    Procesador.calcularCoeficiente (tna1 + fees) n ≤
      Procesador.calcularCoeficiente (tna2 + fees) n ∧
    Procesador.calcularTasaDirecta
        (Procesador.calcularCoeficiente (tna1 + fees) n) n ≤
      Procesador.calcularTasaDirecta
        (Procesador.calcularCoeficiente (tna2 + fees) n) n ∧
    Procesador.calcularTEA importe n (tna1 + fees) ≤
      Procesador.calcularTEA importe n (tna2 + fees) ∧
    Procesador.calcularCFT importe n (tna1 + fees) ≤
      Procesador.calcularCFT importe n (tna2 + fees) := by
  have htem1 : 0 ≤ Fiserv.calcularTEM tna1 := by
    unfold Fiserv.calcularTEM
    positivity
  have htem12 : Fiserv.calcularTEM tna1 ≤ Fiserv.calcularTEM tna2 := by
    unfold Fiserv.calcularTEM
    linarith
  have hcoefA := fiserv_coeficiente_mono htem1 htem12 hn
  have hcoefA1pos := fiserv_coeficiente_pos _ htem1 hn
  have hnq0 : (0 : ℚ) ≤ (n : ℚ) := by positivity
  have hcoefB := procesador_coeficiente_mono
    (by linarith : (0 : ℚ) ≤ tna1 + fees)
    (by linarith : tna1 + fees < tna2 + fees) hn
  refine ⟨hcoefA, ?_, ?_, fiserv_cft_mono hcoefA1pos.le hcoefA n, hcoefB, ?_,
    procesador_tea_mono importe himporte (by linarith) (by linarith) hn,
    procesador_cft_mono importe himporte (by linarith) (by linarith) n⟩
  · unfold Fiserv.calcularTasaDirecta
    have := mul_le_mul_of_nonneg_right hcoefA hnq0
    linarith
  · unfold Fiserv.calcularTEA
    have h1p : (0 : ℚ) ≤ 1 + Fiserv.calcularTEM tna1 := by linarith
    have hle : 1 + Fiserv.calcularTEM tna1 ≤ 1 + Fiserv.calcularTEM tna2 := by
      linarith
    have := pow_le_pow_left₀ h1p hle 12
    linarith
  · unfold Procesador.calcularTasaDirecta
    have := mul_le_mul_of_nonneg_right hcoefB hnq0
    linarith

/-- Witness for C9 at `importe = 100, tna1 = 0, tna2 = 12, fees = 0, n = 2`. -/
theorem C9_witness :
    Fiserv.calcularCoeficiente (Fiserv.calcularTEM 0) 2 ≤
      Fiserv.calcularCoeficiente (Fiserv.calcularTEM 12) 2 ∧
    Procesador.calcularCoeficiente (0 + 0) 2 ≤
      Procesador.calcularCoeficiente (12 + 0) 2 ∧
    Procesador.calcularTEA 100 2 (0 + 0) ≤ Procesador.calcularTEA 100 2 (12 + 0) :=
  ⟨(C9_monotonicity 100 0 12 0 2 (by norm_num) (by norm_num) (le_refl 0)
      (by norm_num) (le_refl 0)).1,
   (C9_monotonicity 100 0 12 0 2 (by norm_num) (by norm_num) (le_refl 0)
      (by norm_num) (le_refl 0)).2.2.2.2.1,
   (C9_monotonicity 100 0 12 0 2 (by norm_num) (by norm_num) (le_refl 0)
      (by norm_num) (le_refl 0)).2.2.2.2.2.2.1⟩

/-- Witness for C10 at `importe = 10000, cuotas = 3, tna = 50`. -/
theorem C10_witness :
    (validarDatosEntrada ⟨10000, 3, 50, none, none, none, none, none⟩).isValid =
      true ∧
    1 ≤ cuotasNat ⟨10000, 3, 50, none, none, none, none, none⟩ ∧
    0 < (28 + 30 *
      ((cuotasNat ⟨10000, 3, 50, none, none, none, none, none⟩ : ℚ) - 1)) / 360 :=
  ⟨by decide, (C10_tea_guard _ 50 (by decide)).2.1,
    (C10_tea_guard _ 50 (by decide)).2.2.1⟩

end TasasCuotas
